import Mathlib

/-!
Shallow embedding of `windpowerlib/wind_turbine.py`: the turbine-attribute
resolution pipeline (file reader, oedb cache, remote fetch with reshape,
dispatch in `specify_data`, and the catalog lister), together with theorems
checking the specification's claims against it.

Numbers are modelled as rationals (the numeric data handled by the code is
exact decimal data).  Python's in-memory `float` values may be NaN, so a
Python float is modelled as `Option ℚ` with `none` standing for NaN.
A CSV cell may be missing (NaN), hence cells are `Option ℚ` as well.
-/

/-- A column label of a tabular source.  `pandas` column labels are either
numbers or text; the code coerces curve labels to float, so both forms are
kept. -/
inductive Label where
  | num (q : ℚ)
  | text (s : String)
deriving DecidableEq, Repr

/-- A tabular source (`pd.read_csv(file_, index_col=0)` result): the first
column is the entity-name index, the remaining columns hold optional numeric
cells (`none` = NaN). -/
structure CsvFile where
  columns : List Label
  rows : List (String × List (Option ℚ))
deriving DecidableEq, Repr

/-- The on-disk state: a finite map from path to file content. -/
structure FileSystem where
  files : List (String × CsvFile)
deriving DecidableEq, Repr

def FileSystem.read (fs : FileSystem) (path : String) : Option CsvFile :=
  (fs.files.find? (fun f => f.1 == path)).map (fun f => f.2)

def FileSystem.write (fs : FileSystem) (path : String) (content : CsvFile) :
    FileSystem :=
  { files := (path, content) :: fs.files.filter (fun f => ¬ f.1 == path) }

/-- A two-column curve table (`pandas.DataFrame` with its column labels, as
produced by `get_turbine_data_from_file`: rows are (wind_speed, value)
pairs). -/
structure CurveDF where
  columns : List String
  rows : List (ℚ × ℚ)
deriving DecidableEq, Repr

/-- The dynamic Python values a turbine-attribute specification can hold:
`None`, a `pandas.DataFrame`, a `float` (`none` = NaN), a string, or a
dictionary of labelled numeric sequences. -/
inductive PyVal where
  | none
  | dataFrame (df : CurveDF)
  | float (x : Option ℚ)
  | str (s : String)
  | dict (entries : List (String × List ℚ))
deriving DecidableEq, Repr

/-- Fatal conditions of the pipeline.  `notFound` models the
`sys.exit('Cannot find the wind converter type: ...')` taken when the entity
is absent, carrying the diagnostic list of known names that the code logs;
the spec's error taxonomy names this condition `NotFoundError`. -/
inductive FetchError where
  | notFound (turbine_type : String) (available : List String)
  | fileNotFound (path : String)
  | connectionError (status : Nat)
  | valueError
deriving DecidableEq, Repr

/-- The three attribute kinds (`fetch_curve` argument values). -/
inductive CurveKind where
  | power_curve
  | power_coefficient_curve
  | nominal_power
deriving DecidableEq, Repr

/-- Substring test on paths, modelling Python's `'nominal_power' in file_`. -/
def containsNominalPower (file_ : String) : Prop :=
  ("nominal_power".toList).IsInfix file_.toList

instance : DecidablePred containsNominalPower := fun f =>
  inferInstanceAs (Decidable (List.IsInfix _ f.toList))

/-- Numeric value of a digit string (helper for the float parser). -/
def natFromDigits (cs : List Char) : Nat :=
  cs.foldl (fun n c => 10 * n + (c.toNat - 48)) 0

/-- Python's `float(x)` applied to a string, restricted to plain decimal
notation (optional sign, integer part, optional fractional part); `none`
models the `ValueError` raised on anything else. -/
def pyFloatOfString (s : String) : Option ℚ :=
  let signed : ℚ × List Char :=
    match s.toList with
    | '-' :: rest => (-1, rest)
    | '+' :: rest => (1, rest)
    | cs => (1, cs)
  let intPart := signed.2.takeWhile Char.isDigit
  let rest := signed.2.dropWhile Char.isDigit
  match rest with
  | [] =>
    if intPart.isEmpty then Option.none
    else some (signed.1 * (natFromDigits intPart : ℚ))
  | '.' :: frac =>
    if frac.all Char.isDigit && !(intPart.isEmpty && frac.isEmpty) then
      some (signed.1 * ((natFromDigits intPart : ℚ) +
        (natFromDigits frac : ℚ) / (10 : ℚ) ^ frac.length))
    else Option.none
  | _ => Option.none

/-- Python's `float(x)` applied to a column label. -/
def pyFloat : Label → Option ℚ
  | .num q => some q
  | .text s => pyFloatOfString s

/-- Elementwise coercion of the (label, value) pairs: each label goes
through `float`, failing (`ValueError`) on a non-numeric label. -/
def coercePairs : List (Label × ℚ) → Except FetchError (List (ℚ × ℚ))
  | [] => Except.ok []
  | lv :: rest =>
    match pyFloat lv.1 with
    | Option.none => Except.error FetchError.valueError
    | some q =>
      match coercePairs rest with
      | Except.error e => Except.error e
      | Except.ok out => Except.ok ((q, lv.2) :: out)

/-- The body of `get_turbine_data_from_file` after row selection, for the
curve case: drop the columns whose cell is missing (`dropna(axis=1)`),
transpose to (label, value) pairs, and coerce each label to float. -/
def curveFromRow (columns : List Label) (cells : List (Option ℚ)) :
    Except FetchError (List (ℚ × ℚ)) :=
  coercePairs ((columns.zip cells).filterMap
    (fun lc => lc.2.map (fun v => (lc.1, v))))

/-- The value computed by `get_turbine_data_from_file(turbine_type, file_)`
from the content read at `file_`.  Selects the rows whose index equals
`turbine_type`, exits with the diagnostic list of known names when none
matches, then either extracts the `nominal_power` scalar (when the path
contains `nominal_power`) or builds the two-column curve table labelled
`wind_speed`/`value`. -/
def turbineDataOfSource (turbine_type : String) (file_ : String)
    (src : Option CsvFile) : Except FetchError PyVal :=
  match src with
  | Option.none => Except.error (FetchError.fileNotFound file_)
  | some df =>
    let wpp := df.rows.filter (fun r => r.1 == turbine_type)
    if wpp.isEmpty then
      Except.error (FetchError.notFound turbine_type
        (df.rows.map (fun r => r.1)))
    else if containsNominalPower file_ then
      match df.columns.findIdx? (fun c => c == Label.text "nominal_power") with
      | Option.none => Except.error FetchError.valueError
      | some j =>
        match wpp.head? with
        | Option.none => Except.error FetchError.valueError
        | some row => Except.ok (PyVal.float ((row.2.get? j).join))
    else
      match wpp with
      | [row] =>
        match curveFromRow df.columns row.2 with
        | Except.error e => Except.error e
        | Except.ok pairs =>
          Except.ok (PyVal.dataFrame ⟨["wind_speed", "value"], pairs⟩)
      | _ => Except.error FetchError.valueError

/-- Embedding of `get_turbine_data_from_file(turbine_type, file_)`: the value
is a function of the content read at `file_` alone, and the file system is
returned as received (the function only reads). -/
def get_turbine_data_from_file (turbine_type : String) (file_ : String)
    (fs : FileSystem) : Except FetchError PyVal × FileSystem :=
  (turbineDataOfSource turbine_type file_ (fs.read file_), fs)

/-- One row of the remote catalog's JSON body.  A curve field is `none` when
the corresponding textual list is falsy (empty), `some l` when it decodes
(via `eval`) to the list `l`. -/
structure OedbRow where
  turbine_type : String
  manufacturer : String
  installed_capacity : Option ℚ
  has_power_curve : Bool
  has_cp_curve : Bool
  power_curve_wind_speeds : Option (List ℚ)
  power_curve_values : Option (List ℚ)
  power_coefficient_curve_wind_speeds : Option (List ℚ)
  power_coefficient_curve_values : Option (List ℚ)
deriving DecidableEq, Repr

/-- The remote endpoint's response: HTTP status code and decoded JSON rows. -/
structure Remote where
  status_code : Nat
  rows : List OedbRow
deriving DecidableEq, Repr

/-- The wind-speed / value fields of a row for a given curve kind. -/
def curveFields (r : OedbRow) : CurveKind → Option (List ℚ) × Option (List ℚ)
  | .power_curve => (r.power_curve_wind_speeds, r.power_curve_values)
  | .power_coefficient_curve =>
      (r.power_coefficient_curve_wind_speeds, r.power_coefficient_curve_values)
  | .nominal_power => (Option.none, Option.none)

/-- The cache-artifact path for an attribute kind
(`os.path.join(dirname, 'data', 'oedb_....csv')`). -/
def oedbFilename : CurveKind → String
  | .power_curve => "data/oedb_power_curves.csv"
  | .power_coefficient_curve => "data/oedb_power_coefficient_curves.csv"
  | .nominal_power => "data/oedb_nominal_power.csv"

/-- The running accumulator `curves_df` of the reshape loop: its `wind_speed`
key column (in merge order) and, per already-merged entity, that entity's own
(wind_speed, value) pairs. -/
structure CurvesAcc where
  wind_speeds : List ℚ
  entities : List (String × List (ℚ × ℚ))
deriving DecidableEq, Repr

/-- One iteration of the reshape loop: outer-merge one entity's two-column
table into the accumulator on the `wind_speed` key (left keys keep their
order, unmatched right keys are appended). -/
def stepAcc (acc : CurvesAcc) (name : String) (ws vals : List ℚ) :
    CurvesAcc :=
  { wind_speeds :=
      acc.wind_speeds ++ ws.filter (fun k => ¬ acc.wind_speeds.contains k),
    entities := acc.entities ++ [(name, ws.zip vals)] }

/-- One row of the reshape loop: a row takes part when both its curve fields
are present, and is skipped otherwise. -/
def curvesStep (kind : CurveKind) (acc : CurvesAcc) (r : OedbRow) :
    CurvesAcc :=
  match curveFields r kind with
  | (some ws, some vals) => stepAcc acc r.turbine_type ws vals
  | _ => acc

/-- Whether a catalog row takes part in the reshape for a curve kind (both
its wind-speed and value fields present). -/
def participates (kind : CurveKind) (r : OedbRow) : Bool :=
  match curveFields r kind with
  | (some _, some _) => true
  | _ => false

/-- The (wind speed, value) pairs of a participating row. -/
def rowPairs (kind : CurveKind) (r : OedbRow) : List (ℚ × ℚ) :=
  match curveFields r kind with
  | (some ws, some vals) => ws.zip vals
  | _ => []

/-- The whole reshape loop over the catalog rows for one curve kind: entities
whose two curve fields are both present are merged in row order. -/
def curvesAccOf (rows : List OedbRow) (kind : CurveKind) : CurvesAcc :=
  rows.foldl (curvesStep kind) ⟨[], []⟩

/-- The persisted curve artifact
(`curves_df.set_index('wind_speed').sort_index().transpose()`): columns are
the accumulated wind speeds sorted ascending, one row per merged entity, a
cell being that entity's value at the column's wind speed when it has one. -/
def reshapeCurves (rows : List OedbRow) (kind : CurveKind) : CsvFile :=
  let acc := curvesAccOf rows kind
  let sorted := acc.wind_speeds.insertionSort (· ≤ ·)
  { columns := sorted.map Label.num,
    rows := acc.entities.map (fun e =>
      (e.1, sorted.map (fun w =>
        (e.2.find? (fun p => p.1 == w)).map (fun p => p.2)))) }

/-- The persisted nominal-power artifact: the (turbine_type,
installed_capacity) projection of the catalog, column renamed
`nominal_power`. -/
def nominalFile (rows : List OedbRow) : CsvFile :=
  { columns := [Label.text "nominal_power"],
    rows := rows.map (fun r => (r.turbine_type, [r.installed_capacity])) }

/-- Embedding of `load_turbine_data_from_oedb()`: raise `ConnectionError`
unless the status code is 200, otherwise write the two reshaped curve
artifacts and the nominal-power artifact and return the raw rows.  On the
error path the file system is returned as received (the raise happens before
any write). -/
def load_turbine_data_from_oedb (remote : Remote) (fs : FileSystem) :
    Except FetchError (List OedbRow) × FileSystem :=
  if remote.status_code ≠ 200 then
    (Except.error (FetchError.connectionError remote.status_code), fs)
  else
    let fs1 := fs.write (oedbFilename .power_curve)
      (reshapeCurves remote.rows .power_curve)
    let fs2 := fs1.write (oedbFilename .power_coefficient_curve)
      (reshapeCurves remote.rows .power_coefficient_curve)
    let fs3 := fs2.write (oedbFilename .nominal_power)
      (nominalFile remote.rows)
    (Except.ok remote.rows, fs3)

/-- The unit correction applied by `get_turbine_data_from_oedb` after the
read: `data * 1000` for nominal power, `data['value'] * 1000` for the power
curve, nothing for the power-coefficient curve. -/
def scaleData : CurveKind → PyVal → PyVal
  | .nominal_power, .float x => .float (x.map (fun v => v * 1000))
  | .nominal_power, .dataFrame df =>
      .dataFrame ⟨df.columns, df.rows.map (fun p => (p.1 * 1000, p.2 * 1000))⟩
  | .power_curve, .dataFrame df =>
      .dataFrame ⟨df.columns, df.rows.map (fun p => (p.1, p.2 * 1000))⟩
  | _, d => d

/-- Embedding of `get_turbine_data_from_oedb(turbine_type, fetch_curve)`:
when the cache artifact is absent, populate all artifacts via
`load_turbine_data_from_oedb`; then read the artifact and apply the unit
correction.  The `Bool` records whether a remote fetch was performed. -/
def get_turbine_data_from_oedb (turbine_type : String)
    (fetch_curve : CurveKind) (remote : Remote) (fs : FileSystem) :
    Except FetchError PyVal × FileSystem × Bool :=
  if (fs.read (oedbFilename fetch_curve)).isNone then
    match load_turbine_data_from_oedb remote fs with
    | (Except.error e, fs') => (Except.error e, fs', true)
    | (Except.ok _, fs') =>
      match get_turbine_data_from_file turbine_type (oedbFilename fetch_curve)
          fs' with
      | (Except.error e, _) => (Except.error e, fs', true)
      | (Except.ok data, _) =>
        (Except.ok (scaleData fetch_curve data), fs', true)
  else
    match get_turbine_data_from_file turbine_type (oedbFilename fetch_curve)
        fs with
    | (Except.error e, _) => (Except.error e, fs, false)
    | (Except.ok data, _) => (Except.ok (scaleData fetch_curve data), fs, false)

/-- Embedding of the `specify_data` helper of `fetch_turbine_data`: `None`,
`DataFrame` and `float` specifications pass through unchanged; the string
`'oedb'` dispatches to the catalog; any other string is read as a file path;
any other type (e.g. a dictionary) falls through unchanged. -/
def specify_data (name : String) (data_specification : PyVal)
    (fetch_curve : CurveKind) (remote : Remote) (fs : FileSystem) :
    Except FetchError PyVal × FileSystem :=
  match data_specification with
  | .none => (Except.ok data_specification, fs)
  | .dataFrame _ => (Except.ok data_specification, fs)
  | .float _ => (Except.ok data_specification, fs)
  | .str s =>
    if s = "oedb" then
      let r := get_turbine_data_from_oedb name fetch_curve remote fs
      (r.1, r.2.1)
    else
      get_turbine_data_from_file name s fs
  | .dict _ => (Except.ok data_specification, fs)

/-- The attribute state of a `WindTurbine` object (the fields touched by
`fetch_turbine_data`; name identifies the entity). -/
structure WindTurbine where
  name : String
  power_coefficient_curve : PyVal
  power_curve : PyVal
  nominal_power : PyVal
deriving DecidableEq, Repr

/-- Embedding of `WindTurbine.fetch_turbine_data`: the three attributes are
resolved and assigned in place one after the other, in the order
`power_curve`, `power_coefficient_curve`, `nominal_power`.  The returned
`WindTurbine` is the object's state when the call ends, also when it ends by
raising: attributes assigned before the raise keep their new values. -/
def fetch_turbine_data (self : WindTurbine) (remote : Remote)
    (fs : FileSystem) : Except FetchError Unit × WindTurbine × FileSystem :=
  match specify_data self.name self.power_curve .power_curve remote fs with
  | (Except.error e, fs1) => (Except.error e, self, fs1)
  | (Except.ok v1, fs1) =>
    let self1 := { self with power_curve := v1 }
    match specify_data self1.name self1.power_coefficient_curve
        .power_coefficient_curve remote fs1 with
    | (Except.error e, fs2) => (Except.error e, self1, fs2)
    | (Except.ok v2, fs2) =>
      let self2 := { self1 with power_coefficient_curve := v2 }
      match specify_data self2.name self2.nominal_power .nominal_power
          remote fs2 with
      | (Except.error e, fs3) => (Except.error e, self2, fs3)
      | (Except.ok v3, fs3) =>
        (Except.ok (), { self2 with nominal_power := v3 }, fs3)

/-- One row of the `get_turbine_types` output table. -/
structure TypesRow where
  manufacturer : String
  turbine_type : String
  has_power_curve : Bool
  has_cp_curve : Bool
deriving DecidableEq, Repr

/-- Row identity used by the outer merge of `get_turbine_types` (its join
keys are the shared columns `manufacturer` and `turbine_type`). -/
def sameTypeKey (m t : String) (r : OedbRow) : Bool :=
  r.manufacturer == m && r.turbine_type == t

/-- The lexicographic key order on output rows (`pd.merge(..., sort=True)`
sorts the result by the join keys). -/
def typesRowLe (a b : TypesRow) : Prop :=
  a.manufacturer < b.manufacturer ∨
    (a.manufacturer = b.manufacturer ∧ a.turbine_type ≤ b.turbine_type)

instance : DecidableRel typesRowLe := fun _ _ =>
  inferInstanceAs (Decidable (_ ∨ _))

/-- The unfiltered listing: all rows with their two flags as given by the
catalog. -/
def typesProjection (df : List OedbRow) : List TypesRow :=
  df.map (fun r =>
    { manufacturer := r.manufacturer, turbine_type := r.turbine_type,
      has_power_curve := r.has_power_curve,
      has_cp_curve := r.has_cp_curve })

/-- The filtered listing: the subset of rows with a power curve and the
subset with a coefficient curve, outer-merged on (manufacturer,
turbine_type) with missing flags filled with `False`, sorted by the join
keys (`pd.merge(..., how='outer', sort=True).fillna(False)`). -/
def filteredTypes (df : List OedbRow) : List TypesRow :=
  let cp : List OedbRow := df.filter (fun r => r.has_cp_curve)
  let p : List OedbRow := df.filter (fun r => r.has_power_curve)
  ((p.map (fun (r : OedbRow) =>
      { manufacturer := r.manufacturer, turbine_type := r.turbine_type,
        has_power_curve := true,
        has_cp_curve :=
          cp.any (sameTypeKey r.manufacturer r.turbine_type) : TypesRow }))
    ++ (cp.filter (fun (c : OedbRow) =>
        ¬ p.any (sameTypeKey c.manufacturer c.turbine_type))).map
      (fun (c : OedbRow) =>
        { manufacturer := c.manufacturer, turbine_type := c.turbine_type,
          has_power_curve := false,
          has_cp_curve := true : TypesRow })).insertionSort typesRowLe

/-- Embedding of `get_turbine_types(filter_)` (console printing aside):
always a full `load_turbine_data_from_oedb`, then either the filtered or the
unfiltered listing of the returned rows. -/
def get_turbine_types (filter_ : Bool) (remote : Remote) (fs : FileSystem) :
    Except FetchError (List TypesRow) × FileSystem :=
  match load_turbine_data_from_oedb remote fs with
  | (Except.error e, fs') => (Except.error e, fs')
  | (Except.ok df, fs') =>
    if filter_ then (Except.ok (filteredTypes df), fs')
    else (Except.ok (typesProjection df), fs')

/-- A concrete file system holding all three cache artifacts, used to
exemplify that a failed fetch leaves existing artifacts untouched. -/
def fsArtifacts : FileSystem :=
  ⟨[("data/oedb_power_curves.csv", ⟨[Label.num 3], [("T", [some 1])]⟩),
    ("data/oedb_power_coefficient_curves.csv",
      ⟨[Label.num 3], [("T", [some (1/2)])]⟩),
    ("data/oedb_nominal_power.csv",
      ⟨[Label.text "nominal_power"], [("T", [some 100])]⟩)]⟩

/-- A specification that is already concrete: absent (`None`), a table
(`DataFrame` or dictionary) or a scalar (`float`). -/
def isLiteralSpec : PyVal → Prop
  | .none => True
  | .dataFrame _ => True
  | .float _ => True
  | .dict _ => True
  | .str _ => False

instance : DecidablePred isLiteralSpec := fun v => by
  cases v <;> simp [isLiteralSpec] <;> infer_instance

/-- A concrete nominal-power cache artifact holding 150 kW for turbine `T`. -/
def fsNom : FileSystem :=
  ⟨[("data/oedb_nominal_power.csv",
    ⟨[Label.text "nominal_power"], [("T", [some 150])]⟩)]⟩

/-- The cache artifact written for one attribute kind by
`load_turbine_data_from_oedb`. -/
def artifactFile (rows : List OedbRow) : CurveKind → CsvFile
  | .power_curve => reshapeCurves rows .power_curve
  | .power_coefficient_curve => reshapeCurves rows .power_coefficient_curve
  | .nominal_power => nominalFile rows

/-- A file system with a power-curve file and a nominal-power file for
turbine `T` but no `cp.csv` file. -/
def fsC4 : FileSystem :=
  ⟨[("pc.csv", ⟨[Label.num 3], [("T", [some 2])]⟩),
    ("np.csv", ⟨[Label.text "nominal_power"], [("T", [some 100])]⟩)]⟩

/-- A concrete pair of source files for the C8 witness: a curve file with a
missing cell and a nominal-power file, both for turbine `T`. -/
def fsC8 : FileSystem :=
  ⟨[("curves.csv",
      ⟨[Label.num 3, Label.text "5.5"], [("T", [some 1, Option.none])]⟩),
    ("my_nominal_power.csv",
      ⟨[Label.text "nominal_power"], [("T", [some 100])]⟩)]⟩

/-- Catalog row `E1` of the reshape test: power-curve wind speeds
`[3, 5, 7]`. -/
def e1row : OedbRow :=
  { turbine_type := "E1", manufacturer := "M", installed_capacity := some 1,
    has_power_curve := true, has_cp_curve := false,
    power_curve_wind_speeds := some [3, 5, 7],
    power_curve_values := some [10, 20, 30],
    power_coefficient_curve_wind_speeds := Option.none,
    power_coefficient_curve_values := Option.none }

/-- Catalog row `E2` of the reshape test: power-curve wind speeds
`[5, 7, 9]`. -/
def e2row : OedbRow :=
  { turbine_type := "E2", manufacturer := "M", installed_capacity := some 2,
    has_power_curve := true, has_cp_curve := false,
    power_curve_wind_speeds := some [5, 7, 9],
    power_curve_values := some [40, 50, 60],
    power_coefficient_curve_wind_speeds := Option.none,
    power_coefficient_curve_values := Option.none }

/-- Catalog row with only a power curve flag. -/
def rowA : OedbRow :=
  { turbine_type := "A", manufacturer := "M", installed_capacity := some 1,
    has_power_curve := true, has_cp_curve := false,
    power_curve_wind_speeds := Option.none,
    power_curve_values := Option.none,
    power_coefficient_curve_wind_speeds := Option.none,
    power_coefficient_curve_values := Option.none }

/-- Catalog row with only a power-coefficient curve flag. -/
def rowB : OedbRow :=
  { turbine_type := "B", manufacturer := "M", installed_capacity := some 2,
    has_power_curve := false, has_cp_curve := true,
    power_curve_wind_speeds := Option.none,
    power_curve_values := Option.none,
    power_coefficient_curve_wind_speeds := Option.none,
    power_coefficient_curve_values := Option.none }

/-- Catalog row with both flags false. -/
def rowC : OedbRow :=
  { turbine_type := "C", manufacturer := "M", installed_capacity := some 3,
    has_power_curve := false, has_cp_curve := false,
    power_curve_wind_speeds := Option.none,
    power_curve_values := Option.none,
    power_coefficient_curve_wind_speeds := Option.none,
    power_coefficient_curve_values := Option.none }

/-- The witness catalog for C9. -/
def rowsW : List OedbRow := [rowA, rowB, rowC]

/-- The file-system state after the witness catalog has been loaded. -/
def fsW' : FileSystem :=
  ((FileSystem.write ⟨[]⟩ (oedbFilename .power_curve)
      (reshapeCurves rowsW .power_curve)).write
    (oedbFilename .power_coefficient_curve)
      (reshapeCurves rowsW .power_coefficient_curve)).write
    (oedbFilename .nominal_power) (nominalFile rowsW)

/-! ## File-system helper lemmas -/

theorem FileSystem.read_write_self (fs : FileSystem) (p : String)
    (c : CsvFile) : (fs.write p c).read p = some c := by
  simp [FileSystem.read, FileSystem.write]

theorem find?_cons_of_false {α : Type} (a : α) (l : List α) (pk : α → Bool)
    (h : pk a = false) : (a :: l).find? pk = l.find? pk := by
  rw [List.find?_cons_of_neg]
  simp [h]

theorem find?_cons_of_true {α : Type} (a : α) (l : List α) (pk : α → Bool)
    (h : pk a = true) : (a :: l).find? pk = some a := by
  rw [List.find?_cons_of_pos]
  simp [h]

theorem find?_filter_out {α : Type} (l : List α) (pf pk : α → Bool)
    (h : ∀ a, pk a = true → pf a = true) :
    (l.filter pf).find? pk = l.find? pk := by
  induction l with
  | nil => rfl
  | cons a t ih =>
    cases hpf : pf a with
    | false =>
      cases hpk : pk a with
      | false =>
        rw [List.filter_cons_of_neg (by simp [hpf]), ih,
          find?_cons_of_false _ _ _ hpk]
      | true => exact absurd (h a hpk) (by simp [hpf])
    | true =>
      rw [List.filter_cons_of_pos (by simp [hpf])]
      cases hpk : pk a with
      | false =>
        rw [find?_cons_of_false _ _ _ hpk, find?_cons_of_false _ _ _ hpk, ih]
      | true =>
        rw [find?_cons_of_true _ _ _ hpk, find?_cons_of_true _ _ _ hpk]

theorem FileSystem.read_write_ne (fs : FileSystem) (p q : String)
    (c : CsvFile) (h : p ≠ q) : (fs.write q c).read p = fs.read p := by
  simp only [FileSystem.read, FileSystem.write]
  rw [find?_cons_of_false (q, c) _ (fun f => f.1 == p) (by
      simp only [beq_eq_false_iff_ne, ne_eq]
      exact fun hq => h hq.symm),
    find?_filter_out _ _ _ (fun a ha => by
      simp only [beq_iff_eq] at ha
      simp [ha, h])]

/-! ## C1: lookup of a missing entity -/

/-- C1: for every tabular source and entity name absent from its row index,
`get_turbine_data_from_file` fails with the not-found error carrying the full
list of known entity names as diagnostic, and leaves the file system
unchanged. -/
theorem file_read_missing_entity (turbine_type file_ : String)
    (fs : FileSystem) (df : CsvFile) (hread : fs.read file_ = some df)
    (habs : turbine_type ∉ df.rows.map (fun r => r.1)) :
    get_turbine_data_from_file turbine_type file_ fs =
      (Except.error (FetchError.notFound turbine_type
        (df.rows.map (fun r => r.1))), fs) := by
  unfold get_turbine_data_from_file turbineDataOfSource
  rw [hread]
  have hfil : df.rows.filter (fun r => r.1 == turbine_type) = [] := by
    rw [List.filter_eq_nil_iff]
    intro a ha
    simp only [beq_iff_eq]
    intro h
    exact habs (List.mem_map.mpr ⟨a, ha, h⟩)
  simp [hfil]

/-- Witness for C1 at a concrete source containing rows `A` and `B` and the
absent entity `Z`. -/
theorem file_read_missing_entity_witness :
    (FileSystem.read
        ⟨[("pc.csv", ⟨[Label.num 3], [("A", [some 1]), ("B", [some 2])]⟩)]⟩
        "pc.csv" =
      some ⟨[Label.num 3], [("A", [some 1]), ("B", [some 2])]⟩) ∧
    "Z" ∉ ["A", "B"] ∧
    get_turbine_data_from_file "Z" "pc.csv"
        ⟨[("pc.csv", ⟨[Label.num 3], [("A", [some 1]), ("B", [some 2])]⟩)]⟩ =
      (Except.error (FetchError.notFound "Z" ["A", "B"]),
        ⟨[("pc.csv", ⟨[Label.num 3], [("A", [some 1]), ("B", [some 2])]⟩)]⟩) :=
  ⟨by rfl, by decide,
    file_read_missing_entity "Z" "pc.csv"
      ⟨[("pc.csv", ⟨[Label.num 3], [("A", [some 1]), ("B", [some 2])]⟩)]⟩
      ⟨[Label.num 3], [("A", [some 1]), ("B", [some 2])]⟩
      (by rfl) (by decide)⟩

/-! ## C2: connection error on non-200 status -/

/-- C2 (counterexample): HTTP status 204 is a 2xx success status, yet
`load_turbine_data_from_oedb` raises `ConnectionError`: the code accepts
exactly status 200, not every 2xx status. -/
theorem load_oedb_raises_on_success_204 :
    (200 ≤ 204 ∧ 204 < 300) ∧
      (load_turbine_data_from_oedb ⟨204, []⟩ ⟨[]⟩).1 =
        Except.error (FetchError.connectionError 204) :=
  ⟨by decide, by rfl⟩

/-- C2 (amended): `load_turbine_data_from_oedb` raises if and only if the
status code differs from 200 (not: from every non-2xx status), the error
raised is `ConnectionError`, and whenever it raises the file system is
returned untouched (no cache artifact is written). -/
theorem load_oedb_connection_error (remote : Remote) (fs : FileSystem) :
    ((∃ e, (load_turbine_data_from_oedb remote fs).1 = Except.error e) ↔
      remote.status_code ≠ 200) ∧
    (∀ e, (load_turbine_data_from_oedb remote fs).1 = Except.error e →
      e = FetchError.connectionError remote.status_code ∧
        (load_turbine_data_from_oedb remote fs).2 = fs) := by
  unfold load_turbine_data_from_oedb
  by_cases h : remote.status_code = 200 <;> simp [h]

/-- Witness for C2 (amended) at status 503 with all three artifacts present
beforehand: the call raises `ConnectionError` and the artifacts are
untouched. -/
theorem load_oedb_connection_error_witness :
    (load_turbine_data_from_oedb ⟨503, []⟩ fsArtifacts).1 =
      Except.error (FetchError.connectionError 503) ∧
    (load_turbine_data_from_oedb ⟨503, []⟩ fsArtifacts).2 = fsArtifacts := by
  have herr : (load_turbine_data_from_oedb ⟨503, []⟩ fsArtifacts).1 =
      Except.error (FetchError.connectionError 503) := by rfl
  exact ⟨herr,
    ((load_oedb_connection_error ⟨503, []⟩ fsArtifacts).2 _ herr).2⟩

/-! ## C6: literal specifications pass through unchanged -/

/-- C6: resolving an absent, table (DataFrame or dict) or scalar
specification returns exactly that value with the file system unchanged (no
unit scaling, no effect); since the result is the same literal, resolving
twice is a no-op. -/
theorem specify_data_literal_noop (name : String) (spec : PyVal)
    (fetch_curve : CurveKind) (remote : Remote) (fs : FileSystem)
    (h : isLiteralSpec spec) :
    specify_data name spec fetch_curve remote fs = (Except.ok spec, fs) ∧
    specify_data name spec fetch_curve remote
        (specify_data name spec fetch_curve remote fs).2 =
      (Except.ok spec, fs) := by
  cases spec <;> simp [specify_data] <;> exact h.elim

/-- Witness for C6 at the inline power-curve dictionary
`{'wind_speed': [0, 5, 10], 'value': [0, 1000000, 4200000]}`: resolution
yields exactly that table, unscaled. -/
theorem specify_data_literal_noop_witness :
    isLiteralSpec (PyVal.dict
      [("wind_speed", [0, 5, 10]), ("value", [0, 1000000, 4200000])]) ∧
    specify_data "E-126/4200"
        (PyVal.dict
          [("wind_speed", [0, 5, 10]), ("value", [0, 1000000, 4200000])])
        .power_curve ⟨200, []⟩ ⟨[]⟩ =
      (Except.ok (PyVal.dict
        [("wind_speed", [0, 5, 10]), ("value", [0, 1000000, 4200000])]),
        ⟨[]⟩) :=
  ⟨trivial,
    (specify_data_literal_noop "E-126/4200"
      (PyVal.dict
        [("wind_speed", [0, 5, 10]), ("value", [0, 1000000, 4200000])])
      .power_curve ⟨200, []⟩ ⟨[]⟩ trivial).1⟩

/-! ## C3: unit correction of catalog-sourced values -/

theorem oedb_cache_hit_eq (t : String) (k : CurveKind) (r : Remote)
    (fs : FileSystem) (h : (fs.read (oedbFilename k)).isSome) :
    get_turbine_data_from_oedb t k r fs =
      (match (get_turbine_data_from_file t (oedbFilename k) fs).1 with
       | Except.error e => (Except.error e, fs, false)
       | Except.ok data => (Except.ok (scaleData k data), fs, false)) := by
  have hn : (fs.read (oedbFilename k)).isNone = false := by
    rw [Option.isNone_eq_false_iff]
    exact h
  unfold get_turbine_data_from_oedb
  rw [hn]
  cases hpair : get_turbine_data_from_file t (oedbFilename k) fs with
  | mk r1 fs2 =>
    cases r1 <;> simp

/-- C3: with the cache artifact present, a nominal power read from it as `v`
(kW) resolves to `v * 1000` (W); a power curve read from it has each value
`c` (kW) resolved to `c * 1000` (W) with the wind speeds unchanged; a
power-coefficient curve is returned exactly as read, unscaled. -/
theorem oedb_unit_scaling (turbine_type : String) (k : CurveKind)
    (remote : Remote) (fs : FileSystem)
    (hcache : (fs.read (oedbFilename k)).isSome) :
    (k = .nominal_power → ∀ v : Option ℚ,
      (get_turbine_data_from_file turbine_type (oedbFilename k) fs).1 =
        Except.ok (PyVal.float v) →
      (get_turbine_data_from_oedb turbine_type k remote fs).1 =
        Except.ok (PyVal.float (v.map (fun x => x * 1000)))) ∧
    (k = .power_curve → ∀ df : CurveDF,
      (get_turbine_data_from_file turbine_type (oedbFilename k) fs).1 =
        Except.ok (PyVal.dataFrame df) →
      (get_turbine_data_from_oedb turbine_type k remote fs).1 =
        Except.ok (PyVal.dataFrame
          ⟨df.columns, df.rows.map (fun p => (p.1, p.2 * 1000))⟩)) ∧
    (k = .power_coefficient_curve → ∀ d : PyVal,
      (get_turbine_data_from_file turbine_type (oedbFilename k) fs).1 =
        Except.ok d →
      (get_turbine_data_from_oedb turbine_type k remote fs).1 =
        Except.ok (scaleData .power_coefficient_curve d)) := by
  refine ⟨?_, ?_, ?_⟩
  · rintro rfl v hfile
    rw [oedb_cache_hit_eq _ _ _ _ hcache, hfile]
    simp [scaleData]
  · rintro rfl df hfile
    rw [oedb_cache_hit_eq _ _ _ _ hcache, hfile]
    simp [scaleData]
  · rintro rfl d hfile
    rw [oedb_cache_hit_eq _ _ _ _ hcache, hfile]

/-- Witness for C3: a cached nominal power of 150 (kW) resolves to
150000 (W). -/
theorem oedb_unit_scaling_witness :
    (FileSystem.read fsNom (oedbFilename .nominal_power)).isSome = true ∧
    (get_turbine_data_from_oedb "T" .nominal_power ⟨200, []⟩ fsNom).1 =
      Except.ok (PyVal.float (some 150000)) := by
  refine ⟨by decide, ?_⟩
  have h := (oedb_unit_scaling "T" .nominal_power ⟨200, []⟩ fsNom
    (by decide)).1 rfl (some 150) (by rfl)
  rw [h]
  norm_num

/-! ## C7: cache hit performs no fetch, writes nothing, is deterministic -/

/-- C7: when the cache artifact for the requested kind exists,
`get_turbine_data_from_oedb` performs no remote fetch and leaves the file
system unchanged, and its value does not depend on the remote state: two
resolutions under the same cache state return equal values. -/
theorem oedb_cache_hit_frame (turbine_type : String) (k : CurveKind)
    (remote : Remote) (fs : FileSystem)
    (hcache : (fs.read (oedbFilename k)).isSome) :
    (get_turbine_data_from_oedb turbine_type k remote fs).2.1 = fs ∧
    (get_turbine_data_from_oedb turbine_type k remote fs).2.2 = false ∧
    ∀ remote₂ : Remote,
      (get_turbine_data_from_oedb turbine_type k remote fs).1 =
        (get_turbine_data_from_oedb turbine_type k remote₂ fs).1 := by
  refine ⟨?_, ?_, ?_⟩
  · rw [oedb_cache_hit_eq _ _ _ _ hcache]
    cases (get_turbine_data_from_file turbine_type (oedbFilename k) fs).1 <;>
      simp
  · rw [oedb_cache_hit_eq _ _ _ _ hcache]
    cases (get_turbine_data_from_file turbine_type (oedbFilename k) fs).1 <;>
      simp
  · intro remote₂
    rw [oedb_cache_hit_eq _ _ _ _ hcache, oedb_cache_hit_eq _ _ _ _ hcache]

/-- Witness for C7 at the concrete cached nominal-power artifact: no write,
no fetch, and the value is independent of the remote state. -/
theorem oedb_cache_hit_frame_witness :
    (FileSystem.read fsNom (oedbFilename .nominal_power)).isSome = true ∧
    (get_turbine_data_from_oedb "T" .nominal_power ⟨200, []⟩ fsNom).2.1 =
      fsNom ∧
    (get_turbine_data_from_oedb "T" .nominal_power ⟨200, []⟩ fsNom).2.2 =
      false ∧
    (get_turbine_data_from_oedb "T" .nominal_power ⟨200, []⟩ fsNom).1 =
      (get_turbine_data_from_oedb "T" .nominal_power ⟨503, []⟩ fsNom).1 := by
  have h := oedb_cache_hit_frame "T" .nominal_power ⟨200, []⟩ fsNom (by decide)
  exact ⟨by decide, h.1, h.2.1, h.2.2 ⟨503, []⟩⟩

/-! ## C10: string dispatch on the catalog sentinel -/

theorem read_after_load_writes (rows : List OedbRow) (X : FileSystem)
    (k : CurveKind) :
    (((X.write (oedbFilename .power_curve)
          (reshapeCurves rows .power_curve)).write
        (oedbFilename .power_coefficient_curve)
          (reshapeCurves rows .power_coefficient_curve)).write
        (oedbFilename .nominal_power) (nominalFile rows)).read
        (oedbFilename k) =
      some (artifactFile rows k) := by
  cases k
  · rw [FileSystem.read_write_ne _ _ _ _ (by decide),
      FileSystem.read_write_ne _ _ _ _ (by decide),
      FileSystem.read_write_self]
    rfl
  · rw [FileSystem.read_write_ne _ _ _ _ (by decide),
      FileSystem.read_write_self]
    rfl
  · rw [FileSystem.read_write_self]
    rfl

theorem oedb_value_eq (t : String) (k : CurveKind) (r : Remote)
    (fs : FileSystem) :
    (get_turbine_data_from_oedb t k r fs).1 =
      if (fs.read (oedbFilename k)).isNone then
        (if r.status_code ≠ 200 then
          Except.error (FetchError.connectionError r.status_code)
         else
          match turbineDataOfSource t (oedbFilename k)
              (some (artifactFile r.rows k)) with
          | Except.error e => Except.error e
          | Except.ok data => Except.ok (scaleData k data))
      else
        match turbineDataOfSource t (oedbFilename k)
            (fs.read (oedbFilename k)) with
        | Except.error e => Except.error e
        | Except.ok data => Except.ok (scaleData k data) := by
  unfold get_turbine_data_from_oedb get_turbine_data_from_file
    load_turbine_data_from_oedb
  cases hn : (fs.read (oedbFilename k)).isNone with
  | true =>
    by_cases hs : r.status_code = 200
    · simp only [hn, hs, ne_eq, not_true_eq_false, if_false, if_true,
        ite_true, ite_false]
      rw [read_after_load_writes]
      rcases htd : turbineDataOfSource t (oedbFilename k)
          (some (artifactFile r.rows k)) with e | d <;> simp [htd]
    · simp [hn, hs]
  | false =>
    simp only [hn, Bool.false_eq_true, if_false, ite_false]
    rcases htd : turbineDataOfSource t (oedbFilename k)
        (fs.read (oedbFilename k)) with e | d <;> simp [htd]

theorem oedb_value_congr (t : String) (k : CurveKind) (r : Remote)
    (fs₁ fs₂ : FileSystem)
    (h : fs₁.read (oedbFilename k) = fs₂.read (oedbFilename k)) :
    (get_turbine_data_from_oedb t k r fs₁).1 =
      (get_turbine_data_from_oedb t k r fs₂).1 := by
  rw [oedb_value_eq, oedb_value_eq, h]

/-- C10: a string specification dispatches to the remote catalog if and only
if it equals the sentinel `'oedb'`, and is otherwise read as a file path; no
cache-artifact path equals `'oedb'`, and consequently the content of a file
whose path is literally `'oedb'` is never read as a user-supplied file: the
resolved value is the same whatever that file holds. -/
theorem specify_data_string_dispatch (name s : String) (k : CurveKind)
    (remote : Remote) (fs : FileSystem) :
    (specify_data name (PyVal.str s) k remote fs =
      if s = "oedb" then
        ((get_turbine_data_from_oedb name k remote fs).1,
          (get_turbine_data_from_oedb name k remote fs).2.1)
      else get_turbine_data_from_file name s fs) ∧
    (∀ k' : CurveKind, oedbFilename k' ≠ "oedb") ∧
    (∀ c₁ c₂ : CsvFile,
      (specify_data name (PyVal.str "oedb") k remote
          (fs.write "oedb" c₁)).1 =
        (specify_data name (PyVal.str "oedb") k remote
          (fs.write "oedb" c₂)).1) := by
  have hne : oedbFilename k ≠ "oedb" := by cases k <;> decide
  refine ⟨?_, fun k' => by cases k' <;> decide, ?_⟩
  · by_cases hs : s = "oedb" <;> simp [specify_data, hs]
  · intro c₁ c₂
    show (get_turbine_data_from_oedb name k remote (fs.write "oedb" c₁)).1 =
      (get_turbine_data_from_oedb name k remote (fs.write "oedb" c₂)).1
    rw [oedb_value_congr name k remote (fs.write "oedb" c₁) fs
        (FileSystem.read_write_ne _ _ _ _ hne),
      oedb_value_congr name k remote (fs.write "oedb" c₂) fs
        (FileSystem.read_write_ne _ _ _ _ hne)]

/-- Witness for C10: with the nominal-power artifact cached, the sentinel
string resolves through the catalog, and the resolved value is unchanged
when a file named `oedb` with arbitrary content is present. -/
theorem specify_data_string_dispatch_witness :
    (specify_data "T" (PyVal.str "oedb") .nominal_power ⟨200, []⟩ fsNom =
      ((get_turbine_data_from_oedb "T" .nominal_power ⟨200, []⟩ fsNom).1,
        (get_turbine_data_from_oedb "T" .nominal_power ⟨200, []⟩
          fsNom).2.1)) ∧
    (specify_data "T" (PyVal.str "oedb") .nominal_power ⟨200, []⟩
        (fsNom.write "oedb" ⟨[], []⟩)).1 =
      (specify_data "T" (PyVal.str "oedb") .nominal_power ⟨200, []⟩
        (fsNom.write "oedb" ⟨[Label.num 1], [("X", [some 5])]⟩)).1 := by
  have h := specify_data_string_dispatch "T" "oedb" .nominal_power ⟨200, []⟩
    fsNom
  exact ⟨by rw [h.1]; simp, h.2.2 ⟨[], []⟩ ⟨[Label.num 1], [("X", [some 5])]⟩⟩

/-! ## C4: resolution is not all-or-nothing on the descriptor -/

/-- C4 (counterexample): when resolving the power-coefficient curve fails
fatally (its file is missing), the descriptor is left partially updated:
`power_curve` already holds its newly resolved table while `nominal_power`
still holds its unresolved file-path specification. -/
theorem fetch_partial_update_cex :
    (fetch_turbine_data
        ⟨"T", PyVal.str "cp.csv", PyVal.str "pc.csv", PyVal.str "np.csv"⟩
        ⟨404, []⟩ fsC4).1 =
      Except.error (FetchError.fileNotFound "cp.csv") ∧
    (fetch_turbine_data
        ⟨"T", PyVal.str "cp.csv", PyVal.str "pc.csv", PyVal.str "np.csv"⟩
        ⟨404, []⟩ fsC4).2.1.power_curve =
      PyVal.dataFrame ⟨["wind_speed", "value"], [(3, 2)]⟩ ∧
    (fetch_turbine_data
        ⟨"T", PyVal.str "cp.csv", PyVal.str "pc.csv", PyVal.str "np.csv"⟩
        ⟨404, []⟩ fsC4).2.1.nominal_power = PyVal.str "np.csv" :=
  ⟨rfl, rfl, rfl⟩

/-- C4 (amended): a fatal resolution error terminates `fetch_turbine_data`
without returning a resolved descriptor, but the descriptor is updated in
place as resolution proceeds: when the first attribute (`power_curve`)
resolves and the second (`power_coefficient_curve`) fails fatally, the final
state holds the newly resolved power curve while the remaining attributes
keep their unresolved specifications. -/
theorem fetch_partial_update (self : WindTurbine) (remote : Remote)
    (fs fs₁ fs₂ : FileSystem) (v₁ : PyVal) (e : FetchError)
    (h1 : specify_data self.name self.power_curve .power_curve remote fs =
      (Except.ok v₁, fs₁))
    (h2 : specify_data self.name self.power_coefficient_curve
        .power_coefficient_curve remote fs₁ = (Except.error e, fs₂)) :
    fetch_turbine_data self remote fs =
      (Except.error e, { self with power_curve := v₁ }, fs₂) := by
  unfold fetch_turbine_data
  rw [h1]
  simp only []
  rw [h2]

/-- Witness for C4 (amended) at the concrete scenario of the
counterexample. -/
theorem fetch_partial_update_witness :
    specify_data "T" (PyVal.str "pc.csv") .power_curve ⟨404, []⟩ fsC4 =
      (Except.ok (PyVal.dataFrame ⟨["wind_speed", "value"], [(3, 2)]⟩),
        fsC4) ∧
    specify_data "T" (PyVal.str "cp.csv") .power_coefficient_curve ⟨404, []⟩
        fsC4 = (Except.error (FetchError.fileNotFound "cp.csv"), fsC4) ∧
    fetch_turbine_data
        ⟨"T", PyVal.str "cp.csv", PyVal.str "pc.csv", PyVal.str "np.csv"⟩
        ⟨404, []⟩ fsC4 =
      (Except.error (FetchError.fileNotFound "cp.csv"),
        ⟨"T", PyVal.str "cp.csv",
          PyVal.dataFrame ⟨["wind_speed", "value"], [(3, 2)]⟩,
          PyVal.str "np.csv"⟩, fsC4) := by
  refine ⟨by rfl, by rfl, ?_⟩
  exact fetch_partial_update
    ⟨"T", PyVal.str "cp.csv", PyVal.str "pc.csv", PyVal.str "np.csv"⟩
    ⟨404, []⟩ fsC4 fsC4 fsC4
    (PyVal.dataFrame ⟨["wind_speed", "value"], [(3, 2)]⟩)
    (FetchError.fileNotFound "cp.csv") (by rfl) (by rfl)

/-! ## C8: scalar versus curve-table result shape of the file reader -/

theorem coercePairs_ok_forall (l : List (Label × ℚ)) (out : List (ℚ × ℚ))
    (h : coercePairs l = Except.ok out) :
    List.Forall₂ (fun (lv : Label × ℚ) (p : ℚ × ℚ) =>
      pyFloat lv.1 = some p.1 ∧ lv.2 = p.2) l out := by
  induction l generalizing out with
  | nil =>
    cases h
    constructor
  | cons a t ih =>
    unfold coercePairs at h
    rcases hp : pyFloat a.1 with _ | q
    · rw [hp] at h
      cases h
    · rw [hp] at h
      rcases hrec : coercePairs t with e | out'
      · rw [hrec] at h
        cases h
      · rw [hrec] at h
        cases h
        exact List.Forall₂.cons ⟨hp, rfl⟩ (ih _ hrec)

/-- C8: on a readable source whose row index matches the requested entity
exactly once, a successful read returns a scalar float precisely when the
path contains the substring `nominal_power`; otherwise it returns a table
whose columns are labelled exactly `wind_speed` and `value` and whose rows
are, in order, the kept (non-missing) cells of the entity's row paired with
their column labels coerced to floating point. -/
theorem file_read_shape (turbine_type file_ : String) (fs : FileSystem)
    (df : CsvFile) (row : String × List (Option ℚ))
    (hread : fs.read file_ = some df)
    (hrow : df.rows.filter (fun r => r.1 == turbine_type) = [row]) :
    (∀ d, (get_turbine_data_from_file turbine_type file_ fs).1 =
        Except.ok d →
      ((∃ x, d = PyVal.float x) ↔ containsNominalPower file_)) ∧
    (∀ dfr : CurveDF, (get_turbine_data_from_file turbine_type file_ fs).1 =
        Except.ok (PyVal.dataFrame dfr) →
      dfr.columns = ["wind_speed", "value"] ∧
      List.Forall₂ (fun (lv : Label × ℚ) (p : ℚ × ℚ) =>
          pyFloat lv.1 = some p.1 ∧ lv.2 = p.2)
        ((df.columns.zip row.2).filterMap
          (fun lc => lc.2.map (fun v => (lc.1, v)))) dfr.rows) := by
  have hval : (get_turbine_data_from_file turbine_type file_ fs).1 =
      turbineDataOfSource turbine_type file_ (some df) := by
    unfold get_turbine_data_from_file
    rw [hread]
  rw [hval]
  unfold turbineDataOfSource
  simp only []
  rw [hrow]
  simp only [List.isEmpty_cons, if_false, Bool.false_eq_true]
  by_cases hnom : containsNominalPower file_
  · rw [if_pos hnom]
    constructor
    · intro d hd
      rcases hidx : df.columns.findIdx?
          (fun c => c == Label.text "nominal_power") with _ | j <;>
        rw [hidx] at hd
      · cases hd
      · simp only [List.head?_cons] at hd
        cases hd
        exact ⟨fun _ => hnom, fun _ => ⟨_, rfl⟩⟩
    · intro dfr hd
      rcases hidx : df.columns.findIdx?
          (fun c => c == Label.text "nominal_power") with _ | j <;>
        rw [hidx] at hd
      · cases hd
      · simp only [List.head?_cons] at hd
        cases hd
  · rw [if_neg hnom]
    constructor
    · intro d hd
      rcases hcv : curveFromRow df.columns row.2 with e | pairs <;>
        rw [hcv] at hd
      · cases hd
      · cases hd
        constructor
        · rintro ⟨x, hx⟩
          cases hx
        · intro hc
          exact absurd hc hnom
    · intro dfr hd
      rcases hcv : curveFromRow df.columns row.2 with e | pairs <;>
        rw [hcv] at hd
      · cases hd
      · cases hd
        exact ⟨rfl, coercePairs_ok_forall _ _ hcv⟩

/-- Witness for C8: on the curve file the reader returns the canonical
two-column table with the missing column dropped, and on the nominal-power
file it returns a scalar float. -/
theorem file_read_shape_witness :
    (FileSystem.read fsC8 "curves.csv" =
      some ⟨[Label.num 3, Label.text "5.5"],
        [("T", [some 1, Option.none])]⟩) ∧
    (get_turbine_data_from_file "T" "curves.csv" fsC8).1 =
      Except.ok (PyVal.dataFrame ⟨["wind_speed", "value"], [(3, 1)]⟩) ∧
    ((∃ x, PyVal.dataFrame ⟨["wind_speed", "value"], [(3, 1)]⟩ =
        PyVal.float x) ↔ containsNominalPower "curves.csv") ∧
    (get_turbine_data_from_file "T" "my_nominal_power.csv" fsC8).1 =
      Except.ok (PyVal.float (some 100)) ∧
    ((∃ x, PyVal.float (some 100) = PyVal.float x) ↔
      containsNominalPower "my_nominal_power.csv") := by
  have h1 := (file_read_shape "T" "curves.csv" fsC8
    ⟨[Label.num 3, Label.text "5.5"], [("T", [some 1, Option.none])]⟩
    ("T", [some 1, Option.none]) (by rfl) (by rfl)).1
    (PyVal.dataFrame ⟨["wind_speed", "value"], [(3, 1)]⟩) (by rfl)
  have h2 := (file_read_shape "T" "my_nominal_power.csv" fsC8
    ⟨[Label.text "nominal_power"], [("T", [some 100])]⟩
    ("T", [some 100]) (by rfl) (by rfl)).1
    (PyVal.float (some 100)) (by rfl)
  exact ⟨by rfl, by rfl, h1, by rfl, h2⟩

/-! ## C5: shape of the reshaped curve artifact -/

theorem mem_windSpeeds_stepAcc (acc : CurvesAcc) (n : String)
    (ws vals : List ℚ) (q : ℚ) :
    q ∈ (stepAcc acc n ws vals).wind_speeds ↔
      q ∈ acc.wind_speeds ∨ q ∈ ws := by
  simp only [stepAcc, List.mem_append, List.mem_filter, decide_not,
    Bool.not_eq_eq_eq_not, Bool.not_true, List.elem_eq_mem,
    decide_eq_false_iff_not, decide_eq_true_eq]
  tauto

theorem nodup_windSpeeds_stepAcc (acc : CurvesAcc) (n : String)
    (ws vals : List ℚ) (hacc : acc.wind_speeds.Nodup) (hws : ws.Nodup) :
    (stepAcc acc n ws vals).wind_speeds.Nodup := by
  refine List.Nodup.append hacc (hws.filter _) ?_
  intro a ha hb
  have := (List.mem_filter.mp hb).2
  simp only [decide_not, Bool.not_eq_eq_eq_not, Bool.not_true,
    List.elem_eq_mem, decide_eq_false_iff_not, decide_eq_true_eq] at this
  exact this ha

theorem foldl_windSpeeds_mem (kind : CurveKind) (rows : List OedbRow)
    (acc : CurvesAcc) (q : ℚ) :
    q ∈ (rows.foldl (curvesStep kind) acc).wind_speeds ↔
      q ∈ acc.wind_speeds ∨ ∃ r ∈ rows, ∃ ws vals,
        curveFields r kind = (some ws, some vals) ∧ q ∈ ws := by
  induction rows generalizing acc with
  | nil => simp
  | cons r t ih =>
    rw [List.foldl_cons, ih]
    have hstep : q ∈ (curvesStep kind acc r).wind_speeds ↔
        q ∈ acc.wind_speeds ∨ ∃ ws vals,
          curveFields r kind = (some ws, some vals) ∧ q ∈ ws := by
      unfold curvesStep
      rcases hcf : curveFields r kind with ⟨ows, ovals⟩
      rcases ows with _ | ws <;> rcases ovals with _ | vals <;>
        simp [mem_windSpeeds_stepAcc]
    rw [hstep]
    simp only [List.mem_cons, exists_eq_or_imp]
    exact or_assoc

theorem foldl_windSpeeds_nodup (kind : CurveKind) (rows : List OedbRow)
    (acc : CurvesAcc) (hacc : acc.wind_speeds.Nodup)
    (hnd : ∀ r ∈ rows, ∀ ws vals,
      curveFields r kind = (some ws, some vals) → ws.Nodup) :
    (rows.foldl (curvesStep kind) acc).wind_speeds.Nodup := by
  induction rows generalizing acc with
  | nil => exact hacc
  | cons r t ih =>
    rw [List.foldl_cons]
    refine ih _ ?_ (fun r' hr' => hnd r' (List.mem_cons_of_mem _ hr'))
    unfold curvesStep
    rcases hcf : curveFields r kind with ⟨ows, ovals⟩
    rcases ows with _ | ws <;> rcases ovals with _ | vals <;>
      first
        | exact hacc
        | exact nodup_windSpeeds_stepAcc _ _ _ _ hacc
            (hnd r (List.mem_cons_self _ _) ws vals hcf)

theorem foldl_entities_eq (kind : CurveKind) (rows : List OedbRow)
    (acc : CurvesAcc) :
    (rows.foldl (curvesStep kind) acc).entities =
      acc.entities ++ (rows.filter (participates kind)).map
        (fun r => (r.turbine_type, rowPairs kind r)) := by
  induction rows generalizing acc with
  | nil => simp
  | cons r t ih =>
    rw [List.foldl_cons, ih]
    unfold curvesStep participates rowPairs
    rcases hcf : curveFields r kind with ⟨ows, ovals⟩
    rcases ows with _ | ws <;> rcases ovals with _ | vals <;>
      simp [stepAcc, List.filter_cons, hcf]

theorem find?_zip_none_iff {ws vals : List ℚ} (hlen : ws.length = vals.length)
    (w : ℚ) :
    ((ws.zip vals).find? (fun p => p.1 == w)) = Option.none ↔ w ∉ ws := by
  induction ws generalizing vals with
  | nil => simp
  | cons a t ih =>
    cases vals with
    | nil => simp at hlen
    | cons b tv =>
      simp only [List.length_cons, Nat.succ.injEq] at hlen
      by_cases haw : a = w
      · rw [List.zip_cons_cons,
          find?_cons_of_true (a, b) _ (fun p => p.1 == w) (by simp [haw])]
        simp [haw]
      · have hwa : ¬ w = a := fun h => haw h.symm
        rw [List.zip_cons_cons,
          find?_cons_of_false (a, b) _ (fun p => p.1 == w) (by simp [haw]),
          ih hlen]
        simp [List.mem_cons, hwa]

theorem find?_zip_some_mem {ws vals : List ℚ} {w : ℚ} {p : ℚ × ℚ}
    (h : (ws.zip vals).find? (fun pr => pr.1 == w) = some p) :
    p.1 = w ∧ p ∈ ws.zip vals := by
  have h1 := List.find?_some h
  have h2 := List.mem_of_find?_eq_some h
  simp only [beq_iff_eq] at h1
  exact ⟨h1, h2⟩

/-- C5: for every catalog and curve kind, the persisted reshaped table has
one column per wind speed: the column keys are exactly the union of the
participating entities' wind speeds, sorted strictly ascending; and it has
one row per participating entity, in catalog order, whose cell under a
wind-speed key `w` is null exactly when the entity does not provide `w`, and
otherwise holds one of the entity's own (w, value) pairs. -/
theorem reshape_curves_spec (rows : List OedbRow) (kind : CurveKind)
    (hwf : ∀ r ∈ rows, ∀ ws vals,
      curveFields r kind = (some ws, some vals) →
      ws.Nodup ∧ ws.length = vals.length) :
    (reshapeCurves rows kind).columns =
      ((curvesAccOf rows kind).wind_speeds.insertionSort (· ≤ ·)).map
        Label.num ∧
    List.Sorted (· < ·)
      ((curvesAccOf rows kind).wind_speeds.insertionSort (· ≤ ·)) ∧
    (∀ q : ℚ,
      q ∈ (curvesAccOf rows kind).wind_speeds.insertionSort (· ≤ ·) ↔
        ∃ r ∈ rows, ∃ ws vals,
          curveFields r kind = (some ws, some vals) ∧ q ∈ ws) ∧
    List.Forall₂ (fun (r : OedbRow) (trow : String × List (Option ℚ)) =>
        trow.1 = r.turbine_type ∧
        ∀ ws vals, curveFields r kind = (some ws, some vals) →
          List.Forall₂ (fun (w : ℚ) (cell : Option ℚ) =>
              (cell = Option.none ↔ w ∉ ws) ∧
              ∀ v, cell = some v → (w, v) ∈ ws.zip vals)
            ((curvesAccOf rows kind).wind_speeds.insertionSort (· ≤ ·))
            trow.2)
      (rows.filter (participates kind)) (reshapeCurves rows kind).rows := by
  refine ⟨rfl, ?_, ?_, ?_⟩
  · have hnd : (curvesAccOf rows kind).wind_speeds.Nodup :=
      foldl_windSpeeds_nodup kind rows ⟨[], []⟩ (by simp)
        (fun r hr ws vals hcf => (hwf r hr ws vals hcf).1)
    have hperm := List.perm_insertionSort (· ≤ ·)
      (curvesAccOf rows kind).wind_speeds
    exact (List.sorted_insertionSort (· ≤ ·) _).lt_of_le
      (hperm.nodup_iff.mpr hnd)
  · intro q
    rw [(List.perm_insertionSort (· ≤ ·) _).mem_iff]
    have h := foldl_windSpeeds_mem kind rows ⟨[], []⟩ q
    simpa using h
  · have hTrows : (reshapeCurves rows kind).rows =
        (rows.filter (participates kind)).map (fun r =>
          (r.turbine_type,
            ((curvesAccOf rows kind).wind_speeds.insertionSort
              (· ≤ ·)).map (fun w =>
              ((rowPairs kind r).find? (fun p => p.1 == w)).map
                (fun p => p.2)))) := by
      show (curvesAccOf rows kind).entities.map (fun e =>
          (e.1, ((curvesAccOf rows kind).wind_speeds.insertionSort
            (· ≤ ·)).map (fun w =>
            (e.2.find? (fun p => p.1 == w)).map (fun p => p.2)))) = _
      conv in (curvesAccOf rows kind).entities =>
        rw [show (curvesAccOf rows kind).entities =
          (rows.filter (participates kind)).map
            (fun r => (r.turbine_type, rowPairs kind r)) from by
          rw [curvesAccOf, foldl_entities_eq]
          rfl]
      rw [List.map_map]
      rfl
    rw [hTrows, List.forall₂_map_right_iff, List.forall₂_same]
    intro r hr
    refine ⟨rfl, ?_⟩
    intro ws vals hcf
    have hlen := (hwf r (List.mem_of_mem_filter hr) ws vals hcf).2
    have hrp : rowPairs kind r = ws.zip vals := by
      unfold rowPairs
      rw [hcf]
    rw [List.forall₂_map_right_iff, List.forall₂_same]
    intro w _
    rw [hrp]
    constructor
    · rw [Option.map_eq_none']
      exact find?_zip_none_iff hlen w
    · intro v hv
      rw [Option.map_eq_some'] at hv
      obtain ⟨p, hp, hpv⟩ := hv
      obtain ⟨hp1, hpm⟩ := find?_zip_some_mem hp
      have hpe : p = (w, v) := by
        cases p
        cases hp1
        cases hpv
        rfl
      exact hpe ▸ hpm

/-- Witness for C5 at the spec's test case: entities `E1` (wind speeds
`[3, 5, 7]`) and `E2` (`[5, 7, 9]`) reshape to keys `{3, 5, 7, 9}` sorted
ascending, `E1` null at 9 and `E2` null at 3. -/
theorem reshape_curves_spec_witness :
    (∀ r ∈ [e1row, e2row], ∀ ws vals,
      curveFields r .power_curve = (some ws, some vals) →
      ws.Nodup ∧ ws.length = vals.length) ∧
    List.Sorted (· < ·)
      ((curvesAccOf [e1row, e2row] .power_curve).wind_speeds.insertionSort
        (· ≤ ·)) ∧
    (reshapeCurves [e1row, e2row] .power_curve).columns =
      [Label.num 3, Label.num 5, Label.num 7, Label.num 9] ∧
    (reshapeCurves [e1row, e2row] .power_curve).rows =
      [("E1", [some 10, some 20, some 30, Option.none]),
        ("E2", [Option.none, some 40, some 50, some 60])] := by
  have hwf : ∀ r ∈ [e1row, e2row], ∀ ws vals,
      curveFields r .power_curve = (some ws, some vals) →
      ws.Nodup ∧ ws.length = vals.length := by
    intro r hr ws vals hcf
    rcases List.mem_cons.mp hr with rfl | hr2
    · simp only [curveFields, e1row, Prod.mk.injEq, Option.some.injEq] at hcf
      obtain ⟨rfl, rfl⟩ := hcf
      exact ⟨by decide, by decide⟩
    · rcases List.mem_cons.mp hr2 with rfl | hr3
      · simp only [curveFields, e2row, Prod.mk.injEq, Option.some.injEq]
          at hcf
        obtain ⟨rfl, rfl⟩ := hcf
        exact ⟨by decide, by decide⟩
      · cases hr3
  have h := reshape_curves_spec [e1row, e2row] .power_curve hwf
  exact ⟨hwf, h.2.1, by decide, by decide⟩

/-! ## C9: filtered and unfiltered catalog listing -/

theorem get_turbine_types_ok (filter_ : Bool) (remote : Remote)
    (fs : FileSystem) (out : List TypesRow) (fs' : FileSystem)
    (h : get_turbine_types filter_ remote fs = (Except.ok out, fs')) :
    out = if filter_ then filteredTypes remote.rows
      else typesProjection remote.rows := by
  unfold get_turbine_types load_turbine_data_from_oedb at h
  by_cases hs : remote.status_code = 200
  · simp only [hs, ne_eq, not_true_eq_false, if_false, ite_false] at h
    cases filter_ <;> simp_all
  · simp only [hs, ne_eq, not_false_eq_true, if_true, ite_true] at h
    simp at h

theorem any_sameTypeKey (rows : List OedbRow)
    (huniq : ∀ a ∈ rows, ∀ b ∈ rows, a.manufacturer = b.manufacturer →
      a.turbine_type = b.turbine_type → a = b)
    (flag : OedbRow → Bool) (r : OedbRow) (hr : r ∈ rows) :
    (rows.filter flag).any (sameTypeKey r.manufacturer r.turbine_type) =
      flag r := by
  cases hfr : flag r with
  | true =>
    apply List.any_eq_true.mpr
    exact ⟨r, List.mem_filter.mpr ⟨hr, hfr⟩, by simp [sameTypeKey]⟩
  | false =>
    apply List.any_eq_false.mpr
    intro c hc hkey
    simp only [sameTypeKey, Bool.and_eq_true, beq_iff_eq] at hkey
    have hcr : c = r :=
      huniq c (List.mem_of_mem_filter hc) r hr hkey.1 hkey.2
    rw [hcr] at hc
    rw [(List.mem_filter.mp hc).2] at hfr
    cases hfr

theorem mem_filteredTypes (df : List OedbRow) (x : TypesRow) :
    x ∈ filteredTypes df ↔
      (∃ r, r ∈ df.filter (fun r => r.has_power_curve) ∧
        ({ manufacturer := r.manufacturer, turbine_type := r.turbine_type,
           has_power_curve := true,
           has_cp_curve := (df.filter (fun r => r.has_cp_curve)).any
             (sameTypeKey r.manufacturer r.turbine_type) : TypesRow } = x)) ∨
      (∃ c, c ∈ (df.filter (fun r => r.has_cp_curve)).filter (fun c =>
          ¬ (df.filter (fun r => r.has_power_curve)).any
            (sameTypeKey c.manufacturer c.turbine_type)) ∧
        ({ manufacturer := c.manufacturer, turbine_type := c.turbine_type,
           has_power_curve := false,
           has_cp_curve := true : TypesRow } = x)) := by
  unfold filteredTypes
  rw [(List.perm_insertionSort typesRowLe _).mem_iff]
  simp [List.mem_append, List.mem_map]

/-- C9: the unfiltered listing returns all catalog rows with their two flags
as provided; the filtered listing returns exactly the entities with at least
one of the two curve flags set (the outer-join union of the two flagged
subsets), each with its catalog flags (a missing flag defaulting to false),
and excludes every entity with both flags false. -/
theorem get_turbine_types_spec (remote : Remote) (fs : FileSystem)
    (hnd : (remote.rows.map
      (fun r => (r.manufacturer, r.turbine_type))).Nodup) :
    (∀ out fs', get_turbine_types false remote fs = (Except.ok out, fs') →
      out = remote.rows.map (fun r =>
        { manufacturer := r.manufacturer, turbine_type := r.turbine_type,
          has_power_curve := r.has_power_curve,
          has_cp_curve := r.has_cp_curve : TypesRow })) ∧
    (∀ out fs', get_turbine_types true remote fs = (Except.ok out, fs') →
      (∀ x ∈ out, ∃ r ∈ remote.rows,
        r.manufacturer = x.manufacturer ∧ r.turbine_type = x.turbine_type ∧
        x.has_power_curve = r.has_power_curve ∧
        x.has_cp_curve = r.has_cp_curve ∧
        (r.has_power_curve ∨ r.has_cp_curve)) ∧
      (∀ r ∈ remote.rows, (r.has_power_curve ∨ r.has_cp_curve) →
        ∃ x ∈ out, x.manufacturer = r.manufacturer ∧
          x.turbine_type = r.turbine_type ∧
          x.has_power_curve = r.has_power_curve ∧
          x.has_cp_curve = r.has_cp_curve) ∧
      (∀ r ∈ remote.rows, ¬r.has_power_curve → ¬r.has_cp_curve →
        ∀ x ∈ out, ¬(x.manufacturer = r.manufacturer ∧
          x.turbine_type = r.turbine_type))) := by
  have huniq : ∀ a ∈ remote.rows, ∀ b ∈ remote.rows,
      a.manufacturer = b.manufacturer → a.turbine_type = b.turbine_type →
      a = b := by
    intro a ha b hb h1 h2
    exact List.inj_on_of_nodup_map hnd ha hb (by simp [h1, h2])
  refine ⟨?_, ?_⟩
  · intro out fs' h
    have hout := get_turbine_types_ok false remote fs out fs' h
    simpa [typesProjection] using hout
  · intro out fs' h
    have hout := get_turbine_types_ok true remote fs out fs' h
    simp only [if_true, ite_true] at hout
    subst hout
    have hforward : ∀ x ∈ filteredTypes remote.rows, ∃ r ∈ remote.rows,
        r.manufacturer = x.manufacturer ∧ r.turbine_type = x.turbine_type ∧
        x.has_power_curve = r.has_power_curve ∧
        x.has_cp_curve = r.has_cp_curve ∧
        (r.has_power_curve ∨ r.has_cp_curve) := by
      intro x hx
      rcases (mem_filteredTypes _ x).mp hx with ⟨r, hrp, hxe⟩ |
          ⟨c, hcf, hxe⟩
      · have hr : r ∈ remote.rows := List.mem_of_mem_filter hrp
        have hrflag : r.has_power_curve = true := (List.mem_filter.mp hrp).2
        subst hxe
        exact ⟨r, hr, rfl, rfl, hrflag.symm,
          any_sameTypeKey remote.rows huniq _ r hr, Or.inl hrflag⟩
      · have hc2 := List.mem_filter.mp hcf
        have hc : c ∈ remote.rows := List.mem_of_mem_filter hc2.1
        have hcflag : c.has_cp_curve = true := (List.mem_filter.mp hc2.1).2
        have hcnop : c.has_power_curve = false := by
          have hthis := hc2.2
          simp only [decide_not, Bool.not_eq_eq_eq_not, Bool.not_true,
            decide_eq_false_iff_not] at hthis
          have hany : (remote.rows.filter
              (fun r => r.has_power_curve)).any
              (sameTypeKey c.manufacturer c.turbine_type) =
              c.has_power_curve :=
            any_sameTypeKey remote.rows huniq
              (fun r => r.has_power_curve) c hc
          rw [hany] at hthis
          exact Bool.eq_false_iff.mpr hthis
        subst hxe
        exact ⟨c, hc, rfl, rfl, hcnop.symm, hcflag.symm, Or.inr hcflag⟩
    refine ⟨hforward, ?_, ?_⟩
    · intro r hr hflag
      cases hhp : r.has_power_curve with
      | true =>
        refine ⟨⟨r.manufacturer, r.turbine_type, true,
          (remote.rows.filter (fun r => r.has_cp_curve)).any
            (sameTypeKey r.manufacturer r.turbine_type)⟩, ?_, rfl, rfl,
          rfl, any_sameTypeKey remote.rows huniq _ r hr⟩
        exact (mem_filteredTypes _ _).mpr (Or.inl
          ⟨r, List.mem_filter.mpr ⟨hr, hhp⟩, rfl⟩)
      | false =>
        have hcp : r.has_cp_curve = true := by
          rcases hflag with h1 | h2
          · rw [hhp] at h1
            cases h1
          · exact h2
        refine ⟨⟨r.manufacturer, r.turbine_type, false, true⟩, ?_, rfl,
          rfl, rfl, hcp.symm⟩
        refine (mem_filteredTypes _ _).mpr (Or.inr ⟨r, ?_, rfl⟩)
        refine List.mem_filter.mpr ⟨List.mem_filter.mpr ⟨hr, hcp⟩, ?_⟩
        have hany : (remote.rows.filter (fun r => r.has_power_curve)).any
            (sameTypeKey r.manufacturer r.turbine_type) =
            r.has_power_curve :=
          any_sameTypeKey remote.rows huniq (fun r => r.has_power_curve) r hr
        rw [hhp] at hany
        simp [hany]
    · intro r hr hnp hnc x hx hkey
      obtain ⟨r', hr', hm, ht, _, _, hflag⟩ := hforward x hx
      have : r' = r := huniq r' hr' r hr (hm.trans hkey.1) (ht.trans hkey.2)
      subst this
      rcases hflag with h1 | h2
      · exact hnp h1
      · exact hnc h2

/-- Witness for C9 on a catalog with a power-curve-only row, a
coefficient-curve-only row and a flagless row: every filtered entry comes
from a row with at least one flag, carrying its catalog flags, and the
flagless row `C` is excluded. -/
theorem get_turbine_types_spec_witness :
    (rowsW.map (fun r => (r.manufacturer, r.turbine_type))).Nodup ∧
    (∀ x ∈ filteredTypes rowsW, ∃ r ∈ rowsW,
      r.manufacturer = x.manufacturer ∧ r.turbine_type = x.turbine_type ∧
      x.has_power_curve = r.has_power_curve ∧
      x.has_cp_curve = r.has_cp_curve ∧
      (r.has_power_curve ∨ r.has_cp_curve)) ∧
    (∀ x ∈ filteredTypes rowsW,
      ¬(x.manufacturer = "M" ∧ x.turbine_type = "C")) := by
  have h := get_turbine_types_spec ⟨200, rowsW⟩ ⟨[]⟩ (by decide)
  have h2 := h.2 (filteredTypes rowsW) fsW' (by rfl)
  exact ⟨by decide, h2.1, h2.2.2 rowC (by decide) (by decide) (by decide)⟩
